import Mathlib

set_option linter.unusedVariables false

/-!
Shallow embedding of the HMTL message dispatch / program-execution core
(`ProgramManager` and `MessageHandler` from the repository source), together
with theorems settling the specification claims about it.

Machine integers (`byte`, `uint16_t`) are modelled as `Nat`; all values that
occur in the claims are far below the wraparound boundaries, and no arithmetic
in the embedded code can overflow on the inputs considered.  C arrays are
modelled as `List`s; an indexed read is the optional `xs[i]?`, so that an
access past the end of the array (undefined behaviour in the C source) is
visible as `none`.  A C pointer that may be `NULL` is an `Option`.
-/

/-! ### Protocol constants

Numeric values of the protocol constants, from `HMTLProtocol.h` /
`ProgramManager.h` (header files of this repository; only their use sites are
among the sources, so the exact numerals are representative — every claim
depends only on the constants being fixed and pairwise distinct). -/

/-- Reserved broadcast destination address (`SOCKET_ADDR_ANY`). -/
def SOCKET_ADDR_ANY : Nat := 65535

/-- Supported protocol version (`HMTL_MSG_VERSION`). -/
def HMTL_MSG_VERSION : Nat := 2

/-- Message type tag for output commands (`MSG_TYPE_OUTPUT`). -/
def MSG_TYPE_OUTPUT : Nat := 1

/-- Message type tag for poll requests (`MSG_TYPE_POLL`). -/
def MSG_TYPE_POLL : Nat := 2

/-- Message type tag for address assignment (`MSG_TYPE_SET_ADDR`). -/
def MSG_TYPE_SET_ADDR : Nat := 3

/-- Message type tag for sensor data (`MSG_TYPE_SENSOR`). -/
def MSG_TYPE_SENSOR : Nat := 4

/-- ACK bit in the message flags field (`MSG_FLAG_ACK`). -/
def MSG_FLAG_ACK : Nat := 1

/-- Output sub-type tag marking a program-configuration payload
(`HMTL_OUTPUT_PROGRAM`). -/
def HMTL_OUTPUT_PROGRAM : Nat := 5

/-- Reserved program type meaning "no program" (`HMTL_PROGRAM_NONE`). -/
def HMTL_PROGRAM_NONE : Nat := 0

/-- Program type of the sensor-data handler (`PROGRAM_SENSOR_DATA`). -/
def PROGRAM_SENSOR_DATA : Nat := 6

/-- The DONE bit in a tracker's flags (`PROGRAM_TRACKER_DONE`). -/
def PROGRAM_TRACKER_DONE : Nat := 1

/-! ### Program manager data model -/

/-- Header common to all output payloads (`output_hdr_t`): a sub-type tag and
the index of the output it addresses. -/
structure output_hdr_t where
  type : Nat
  output : Nat
deriving Repr, DecidableEq

/-- A program-configuration message payload (`msg_program_t`): an output
header, the requested program type, and the program-specific parameter
bytes (`values`). -/
structure msg_program_t where
  hdr : output_hdr_t
  type : Nat
  values : List Nat
deriving Repr, DecidableEq

/-- An entry of the program registry (`hmtl_program_t`): the program type tag
plus the two function pointers.  The `setup` and `program` (step) function
pointers are modelled by opaque identifiers; their semantics enter the
embedding as explicit function parameters of `handle_msg` and `run`. -/
structure hmtl_program_t where
  type : Nat
  setupId : Nat
  stepId : Nat
deriving Repr, DecidableEq

/-- Per-output animation state (`program_tracker_t`): the registry entry the
tracker runs, its flags, and the malloc'd opaque per-program state
(`NULL` = `none`). -/
structure program_tracker_t where
  program : hmtl_program_t
  flags : Nat
  state : Option (List Nat)
deriving Repr, DecidableEq

/-- The `ProgramManager` object: output descriptors, one optional tracker per
output, per-output collaborator objects, the configured number of outputs,
and the program registry (`functions`; `num_programs` is its length).
An element `none` of `outputs` models a `NULL` output descriptor pointer. -/
structure ProgramManager where
  outputs : List (Option output_hdr_t)
  trackers : List (Option program_tracker_t)
  objects : List Nat
  num_outputs : Nat
  functions : List hmtl_program_t
deriving Repr, DecidableEq

/-- Outcome of an embedded operation that performs raw array accesses:
either a normal result, or an out-of-bounds array access, which in the C
source is undefined behaviour. -/
inductive HandleResult where
  | ok (success : Bool) (pm : ProgramManager)
  | oob
deriving Repr, DecidableEq

/-- Embedding of `ProgramManager::lookup_function`: linear scan of the registry for the
first entry whose `type` equals `id`; `NULL` (= `none`) if absent. -/
def lookup_function (pm : ProgramManager) (id : Nat) : Option hmtl_program_t :=
  pm.functions.find? (fun f => f.type = id)

/-- Embedding of `ProgramManager::free_tracker`: free the tracker at `index` (and its
state) and null the slot. -/
def free_tracker (pm : ProgramManager) (index : Nat) : ProgramManager :=
  { pm with trackers := pm.trackers.set index none }

/-- Embedding of `ProgramManager::handle_msg`, the `assign` operation.  `setupFn` gives the
semantics of the registered programs' `setup` function pointers: applied to
the pointer's identifier and the inbound message it returns the opaque state
the setup parses out of the message (per the spec, `setup` "parses its own
parameters into the opaque state").  The source checks, in order: registry
lookup, `msg->hdr.output > num_outputs`, `outputs[output] == NULL`; it then
reads `trackers[output]`, handles the reserved "none" program by freeing the
tracker, and otherwise installs the tracker and runs `setup`. -/
def handle_msg (setupFn : Nat → msg_program_t → Option (List Nat))
    (pm : ProgramManager) (msg : msg_program_t) : HandleResult :=
  match lookup_function pm msg.type with
  | none => .ok false pm
  | some program =>
    if pm.num_outputs < msg.hdr.output then .ok false pm
    else
      match pm.outputs[msg.hdr.output]? with
      | none => .oob
      | some none => .ok false pm
      | some (some _) =>
        match pm.trackers[msg.hdr.output]? with
        | none => .oob
        | some _ =>
          if program.type = HMTL_PROGRAM_NONE then
            .ok true (free_tracker pm msg.hdr.output)
          else
            .ok true { pm with
              trackers := pm.trackers.set msg.hdr.output
                (some { program := program, flags := 0,
                        state := setupFn program.setupId msg }) }

/-! ### Scheduler tick -/

/-- Accumulated state of one `ProgramManager::run` tick: the `updated` flag,
the manager state, and — instrumenting the call boundary to the registered
programs — the list of output indices whose `step` function was invoked
during the tick. -/
structure RunState where
  updated : Bool
  pm : ProgramManager
  stepped : List Nat
deriving Repr, DecidableEq

/-- One iteration of the loop in `ProgramManager::run`, at output index `i`:
skip an empty slot; free the tracker and `continue` (without stepping) when
its DONE flag is set; otherwise invoke the tracker's program (`stepFn` gives
the semantics of the registry's step function pointers: it returns the
"value changed" boolean of the C call together with the tracker as the step
left it, since the step receives the tracker by pointer). -/
def run_iter
    (stepFn : Nat → Option output_hdr_t → Nat → program_tracker_t →
      Bool × program_tracker_t)
    (st : RunState) (i : Nat) : RunState :=
  match st.pm.trackers[i]? with
  | none => st
  | some none => st
  | some (some tracker) =>
    if tracker.flags &&& PROGRAM_TRACKER_DONE ≠ 0 then
      { st with pm := free_tracker st.pm i }
    else
      let r := stepFn tracker.program.stepId
        (st.pm.outputs[i]?.getD none) (st.pm.objects.getD i 0) tracker
      { updated := st.updated || r.1,
        pm := { st.pm with trackers := st.pm.trackers.set i (some r.2) },
        stepped := st.stepped ++ [i] }

/-- Embedding of `ProgramManager::run`: iterate `run_iter` over outputs `0 .. num_outputs-1`. -/
def ProgramManager.run
    (stepFn : Nat → Option output_hdr_t → Nat → program_tracker_t →
      Bool × program_tracker_t)
    (pm : ProgramManager) : RunState :=
  (List.range pm.num_outputs).foldl (run_iter stepFn) ⟨false, pm, []⟩

/-- Outcome of `ProgramManager::run_program`: either the invocation of a
registered program's step function (recording the step identifier and the
argument it was passed), or a call through a `NULL` program pointer —
undefined behaviour in the C source. -/
inductive RunProgramResult where
  | called (stepId : Nat) (arg : Nat)
  | nullCall
deriving Repr, DecidableEq

/-- Embedding of `ProgramManager::run_program`: look the type up in the registry, then
invoke `program->program(NULL, arg, NULL)` without checking the lookup
result — a failed lookup reaches a call through a `NULL` pointer. -/
def run_program (pm : ProgramManager) (type : Nat) (arg : Nat) :
    RunProgramResult :=
  match lookup_function pm type with
  | none => .nullCall
  | some program => .called program.stepId arg

/-! ### Message handler data model -/

/-- A bus socket (`Socket`): the capacity of its send buffer
(`send_data_size`), the buffer contents, the socket's notion of this node's
source address, its advertised receive limit, and — instrumenting the
transmission side effect of `sendMsgTo` — the log of `(destination, bytes)`
pairs it has transmitted. -/
structure Socket where
  send_data_size : Nat
  send_buffer : List Nat
  sourceAddress : Nat
  recvLimit : Nat
  sent : List (Nat × List Nat)
deriving Repr, DecidableEq

/-- Typed view of the bytes following a message header.  The C source casts
the raw payload pointer according to the header's type tag; the embedding
carries the decoded payload alongside the header and considers well-formed
frames, in which the payload constructor matches the type tag. -/
inductive Payload where
  | output (p : msg_program_t)
  | setAddr (device_id : Nat) (address : Nat)
  | sensors (data : List Nat)
  | raw
deriving Repr, DecidableEq

/-- A decoded message frame (`msg_hdr_t` and what follows it): header fields,
the raw frame bytes (`bytes`, what `Serial.write`/`memcpy` copy, `length` of
them), the sender address the transport framing carries (what
`src->sourceFromData` recovers), and the typed payload. -/
structure msg_hdr_t where
  version : Nat
  length : Nat
  address : Nat
  type : Nat
  flags : Nat
  bytes : List Nat
  source : Nat
  payload : Payload
deriving Repr, DecidableEq

/-- The node configuration descriptor (`config_hdr_t`), as far as the
dispatcher reads it. -/
structure config_hdr_t where
  device_id : Nat
deriving Repr, DecidableEq

/-- Effects of one `MessageHandler::process_msg` call: its boolean return,
the handler's address afterwards, every byte string written to the serial
port, the source socket as the call left it, the total blocking `delay` in
milliseconds, whether the message reached the type-dispatch `switch`, and
the logs of calls made across the module boundary (`manager->handle_msg`,
`hmtl_handle_output_msg`, `manager->run_program` on sensor readings).
`serial_sock` is the lent serial-response socket when the call mutated it
(the poll branch fills its buffer when `src` is `NULL`); `none` means it was
left untouched. -/
structure ProcEffects where
  ret : Bool := false
  address : Nat
  serial_writes : List (List Nat) := []
  src : Option Socket
  delayMs : Nat := 0
  dispatched : Bool := false
  program_msgs : List msg_program_t := []
  value_msgs : List output_hdr_t := []
  sensor_calls : List Nat := []
  serial_sock : Option Socket := none
deriving Repr, DecidableEq

/-- Outcome of `process_msg`: normal effects, or the dereference of a `NULL`
pointer — undefined behaviour in the C source. -/
inductive ProcResult where
  | ok (eff : ProcEffects)
  | nullDeref
deriving Repr, DecidableEq

/-- Whether the message reached the dispatcher's type `switch` (the `NULL`
dereference can only be reached inside the switch). -/
def ProcResult.wasDispatched : ProcResult → Bool
  | .ok eff => eff.dispatched
  | .nullDeref => true

/-- Modelled from the spec: `hmtl_poll_fmt` (defined in `HMTLMessaging.cpp`,
which is not among the sources) formats a poll-response describing this
node into the given send buffer, truncated to the requester's receive limit
and the buffer capacity, returning its length.  The claims never inspect the
response content, only that it is produced and where it is sent, so the
bytes are left opaque (zeros) here. -/
def hmtl_poll_fmt (send_data_size : Nat) (source_address : Nat) (flags : Nat)
    (recvLimit : Nat) : List Nat :=
  List.replicate (min send_data_size recvLimit) 0

/-- The condition of the dispatcher's ack-echo special case: ACK flag set
and the destination not the broadcast address (evaluated inside the "for
this device" conditional of `process_msg`). -/
def ack_echo (msg : msg_hdr_t) : Bool :=
  decide (msg.flags &&& MSG_FLAG_ACK ≠ 0 ∧ msg.address ≠ SOCKET_ADDR_ANY)

/-- The bytes `process_msg` echoes to the serial port before type dispatch:
the raw frame when the ack-echo special case applies, nothing otherwise. -/
def echo_writes (msg : msg_hdr_t) : List (List Nat) :=
  if ack_echo msg then [msg.bytes.take msg.length] else []

/-- Embedding of `MessageHandler::process_msg`.  `mh_address` is the handler's current
address; `src` is the socket the message arrived on (`NULL` = `none` for
serial-originated messages); `serial_socket` lends its buffer for poll
responses when `src` is `NULL`. -/
def process_msg (mh_address : Nat) (msg : msg_hdr_t) (src : Option Socket)
    (serial_socket : Socket) (config : config_hdr_t) : ProcResult :=
  if msg.version ≠ HMTL_MSG_VERSION then
    .ok { address := mh_address, src := src }
  else if msg.address = mh_address ∨ msg.address = SOCKET_ADDR_ANY then
    if ack_echo msg ∧ msg.type ≠ MSG_TYPE_SENSOR then
      .ok { address := mh_address, serial_writes := echo_writes msg,
            src := src }
    else if msg.type = MSG_TYPE_OUTPUT then
      match msg.payload with
      | .output p =>
        if p.hdr.type = HMTL_OUTPUT_PROGRAM then
          .ok { ret := true, address := mh_address,
                serial_writes := echo_writes msg, src := src, dispatched := true,
                program_msgs := [p] }
        else
          .ok { ret := true, address := mh_address,
                serial_writes := echo_writes msg, src := src, dispatched := true,
                value_msgs := [p.hdr] }
      | _ => .ok { address := mh_address, serial_writes := echo_writes msg,
                   src := src, dispatched := true }
    else if msg.type = MSG_TYPE_POLL then
      match src with
      | some s =>
        let source_address := msg.source
        let response := hmtl_poll_fmt s.send_data_size source_address
          msg.flags s.recvLimit
        let d := if msg.address = SOCKET_ADDR_ANY then mh_address * 2 else 0
        .ok { address := mh_address, serial_writes := echo_writes msg,
              delayMs := d, dispatched := true,
              src := some { s with
                send_buffer := response,
                sent := s.sent ++ [(source_address, response)] } }
      | none =>
        let response := hmtl_poll_fmt serial_socket.send_data_size 0
          msg.flags serial_socket.recvLimit
        .ok { address := mh_address,
              serial_writes := echo_writes msg ++ [response], src := none,
              dispatched := true,
              serial_sock := some { serial_socket with
                send_buffer := response } }
    else if msg.type = MSG_TYPE_SET_ADDR then
      match msg.payload with
      | .setAddr device_id new_address =>
        if device_id = 0 ∨ device_id = config.device_id then
          match src with
          | none => .nullDeref
          | some s =>
            .ok { address := new_address, serial_writes := echo_writes msg,
                  dispatched := true,
                  src := some { s with sourceAddress := new_address } }
        else
          .ok { address := mh_address, serial_writes := echo_writes msg,
                src := src, dispatched := true }
      | _ => .ok { address := mh_address, serial_writes := echo_writes msg,
                   src := src, dispatched := true }
    else if msg.type = MSG_TYPE_SENSOR then
      match msg.payload with
      | .sensors data =>
        if msg.flags &&& MSG_FLAG_ACK ≠ 0 then
          .ok { address := mh_address, serial_writes := echo_writes msg,
                src := src, dispatched := true, sensor_calls := data }
        else
          .ok { address := mh_address, serial_writes := echo_writes msg,
                src := src, dispatched := true }
      | _ => .ok { address := mh_address, serial_writes := echo_writes msg,
                   src := src, dispatched := true }
    else
      .ok { address := mh_address, serial_writes := echo_writes msg, src := src,
            dispatched := true }
  else
    .ok { address := mh_address, src := src }

/-- Embedding of `MessageHandler::check_and_forward`: forward `msg` over `socket` when it
is not addressed to this module or is a broadcast; refuse (with only a
diagnostic) when the frame exceeds the socket's send buffer, otherwise
`memcpy` the frame into the send buffer and transmit it to the frame's
destination address.  Returns whether the message was forwarded, paired with
the socket afterwards. -/
def check_and_forward (mh_address : Nat) (msg : msg_hdr_t) (socket : Socket) :
    Bool × Socket :=
  if msg.address ≠ mh_address ∨ msg.address = SOCKET_ADDR_ANY then
    if socket.send_data_size < msg.length then
      (false, socket)
    else
      let buf := msg.bytes.take msg.length
      (true, { socket with
        send_buffer := buf,
        sent := socket.sent ++ [(msg.address, buf)] })
  else
    (false, socket)

/-- Result of one `check_serial`/`check_socket` call: the "outputs may need
updating" boolean, the handler's address afterwards, the socket array
afterwards, the serial writes performed, and the `process_msg` outcome when
a message was received. -/
structure CheckSerialResult where
  update : Bool
  address : Nat
  sockets : List (Option Socket)
  serial_writes : List (List Nat)
  proc : Option ProcResult
deriving Repr, DecidableEq

/-- Embedding of `MessageHandler::check_serial`: when a complete frame has been received
on the serial port (`serial_in`), acknowledge it, offer it to
`check_and_forward` on every non-`NULL` socket, and then process it with a
`NULL` source socket, lending `sockets[0]` as the poll-response buffer.
A `NULL` `sockets[0]` (never the case on a configured node, and exercised by
no claim) is stood in for by an empty socket rather than a further
undefined-behaviour case. -/
def forward_to_all (addr : Nat) (msg : msg_hdr_t)
    (sockets : List (Option Socket)) : List (Option Socket) :=
  sockets.map (fun os => os.map (fun s => (check_and_forward addr msg s).2))

/-- The socket `check_serial` lends to `process_msg` for poll responses:
`sockets[0]`, with an empty stand-in when it is `NULL` or absent (never the
case on a configured node, and exercised by no claim). -/
def serial_lend (sockets1 : List (Option Socket)) : Socket :=
  (sockets1[0]?.getD none).getD ⟨0, [], 0, 0, []⟩

/-- Embedding of `MessageHandler::check_serial` (continued): offer the received frame to
every socket, process it with a `NULL` source, and fold the processing
effects (possible poll-response fill of `sockets[0]`) back into the socket
array. -/
def check_serial (addr : Nat) (serial_in : Option msg_hdr_t)
    (sockets : List (Option Socket)) (config : config_hdr_t) :
    CheckSerialResult :=
  match serial_in with
  | none => ⟨false, addr, sockets, [], none⟩
  | some msg =>
    match process_msg addr msg none
        (serial_lend (forward_to_all addr msg sockets)) config with
    | .nullDeref =>
      ⟨false, addr, forward_to_all addr msg sockets, [], some .nullDeref⟩
    | .ok eff =>
      match eff.serial_sock with
      | some s0 =>
        ⟨eff.ret, eff.address,
         (forward_to_all addr msg sockets).set 0 (some s0),
         eff.serial_writes, some (.ok eff)⟩
      | none =>
        ⟨eff.ret, eff.address, forward_to_all addr msg sockets,
         eff.serial_writes, some (.ok eff)⟩

/-- Result of one `check_socket` call on a single socket. -/
structure CheckSocketResult where
  update : Bool
  address : Nat
  socket : Socket
  serial_writes : List (List Nat)
  proc : Option ProcResult
deriving Repr, DecidableEq

/-- Embedding of `MessageHandler::check_socket`: when a frame has been received on
`socket` (`msg_in`), process it with `socket` as the source; no forwarding
to any other transport takes place here.  (`check` passes the same socket as
the serial-response lender, mirrored in the `process_msg` call.) -/
def check_socket (addr : Nat) (msg_in : Option msg_hdr_t) (socket : Socket)
    (config : config_hdr_t) : CheckSocketResult :=
  match msg_in with
  | none => ⟨false, addr, socket, [], none⟩
  | some msg =>
    match process_msg addr msg (some socket) socket config with
    | .nullDeref => ⟨false, addr, socket, [], some .nullDeref⟩
    | .ok eff =>
      ⟨eff.ret, eff.address, eff.src.getD socket, eff.serial_writes,
       some (.ok eff)⟩

/-- Net result of a full `MessageHandler::check` pass. -/
structure CheckResult where
  update : Bool
  address : Nat
  sockets : List (Option Socket)
  serial_writes : List (List Nat)
deriving Repr, DecidableEq

/-- One iteration of the socket loop in `MessageHandler::check`: skip `NULL`
sockets, otherwise run `check_socket` on socket `i` and its pending inbound
frame. -/
def check_iter (socket_ins : List (Option msg_hdr_t))
    (config : config_hdr_t) (st : CheckResult) (i : Nat) : CheckResult :=
  match st.sockets[i]? with
  | some (some sock) =>
    let r := check_socket st.address (socket_ins[i]?.getD none) sock
      config
    { update := st.update || r.update, address := r.address,
      sockets := st.sockets.set i (some r.socket),
      serial_writes := st.serial_writes ++ r.serial_writes }
  | _ => st

/-- Embedding of `MessageHandler::check`: drain the serial port, then every socket in
turn.  `serial_in` and `socket_ins` model the frame, if any, pending on the
serial port and on each socket for this pass. -/
def check (addr : Nat) (serial_in : Option msg_hdr_t)
    (socket_ins : List (Option msg_hdr_t))
    (sockets : List (Option Socket)) (config : config_hdr_t) : CheckResult :=
  let csr := check_serial addr serial_in sockets config
  (List.range sockets.length).foldl (check_iter socket_ins config)
    ⟨csr.update, csr.address, csr.sockets, csr.serial_writes⟩

/-! ### Sample concrete objects for the witnesses -/

/-- Sample setup-function semantics: the opaque state records the setup
pointer's identifier and the message parameter bytes. -/
def sampleSetup : Nat → msg_program_t → Option (List Nat) :=
  fun sid msg => some (sid :: msg.values)

/-- Sample registered program (type tag 3). -/
def sampleProg : hmtl_program_t := { type := 3, setupId := 11, stepId := 12 }

/-- Sample registry entry for the reserved "none" program. -/
def sampleNone : hmtl_program_t :=
  { type := HMTL_PROGRAM_NONE, setupId := 0, stepId := 0 }

/-- Sample output descriptor. -/
def sampleOut : output_hdr_t := { type := 1, output := 0 }

/-- Sample manager: two outputs, no trackers, one registered program. -/
def samplePM : ProgramManager :=
  { outputs := [some sampleOut, some sampleOut], trackers := [none, none],
    objects := [0, 0], num_outputs := 2, functions := [sampleProg] }

/-- Sample program-configuration message for output 1. -/
def sampleProgMsg : msg_program_t :=
  { hdr := { type := HMTL_OUTPUT_PROGRAM, output := 1 }, type := 3,
    values := [7] }

/-- State of `samplePM` after `handle_msg sampleSetup samplePM sampleProgMsg`. -/
def samplePMafter : ProgramManager :=
  { samplePM with
    trackers := [none,
      some { program := sampleProg, flags := 0, state := some [11, 7] }] }

/-- Sample tracker mid-animation (flags include the DONE bit). -/
def sampleTracker : program_tracker_t :=
  { program := sampleProg, flags := 1, state := some [1] }

/-- Sample manager with the "none" program registered and a live tracker. -/
def samplePMn : ProgramManager :=
  { outputs := [some sampleOut], trackers := [some sampleTracker],
    objects := [0], num_outputs := 1, functions := [sampleNone, sampleProg] }

/-- Sample clearing message (reserved "none" type) for output 0. -/
def sampleNoneMsg : msg_program_t :=
  { hdr := { type := HMTL_OUTPUT_PROGRAM, output := 0 },
    type := HMTL_PROGRAM_NONE, values := [] }

/-! ### Claims about the program manager -/

/-- C1: for a registered, non-"none" program, a successful
`ProgramManager::handle_msg` leaves the addressed output with exactly one
tracker, whose program reference is the registry entry found for the
message's type, whose flags are reset (in particular the DONE bit is
cleared), and whose opaque state is what the program's `setup` parsed out of
the inbound message. -/
theorem claim_C1 (setupFn : Nat → msg_program_t → Option (List Nat))
    (pm pm' : ProgramManager) (msg : msg_program_t) (P : hmtl_program_t)
    (hlook : lookup_function pm msg.type = some P)
    (hP : P.type ≠ HMTL_PROGRAM_NONE)
    (hok : handle_msg setupFn pm msg = .ok true pm') :
    ∃ t : program_tracker_t,
      pm'.trackers[msg.hdr.output]? = some (some t) ∧
      t.program = P ∧ t.flags = 0 ∧
      t.flags &&& PROGRAM_TRACKER_DONE = 0 ∧
      t.state = setupFn P.setupId msg := by
  unfold handle_msg at hok
  rw [hlook] at hok
  split at hok
  · rename_i heq; cases heq
  · rename_i program heq
    injection heq with h
    subst h
    split at hok
    · cases hok
    · split at hok
      · cases hok
      · cases hok
      · split at hok
        · cases hok
        · rename_i htr
          injection hok with h2 hpm
          subst hpm
          obtain ⟨hlt, -⟩ := List.getElem?_eq_some.mp htr
          exact ⟨{ program := P, flags := 0, state := setupFn P.setupId msg },
            by simp [List.getElem?_set_self hlt], rfl, rfl, by simp, rfl⟩

/-- Witness for C1 at a concrete manager, message and setup semantics. -/
theorem claim_C1_witness :
    ∃ t : program_tracker_t,
      samplePMafter.trackers[sampleProgMsg.hdr.output]? = some (some t) ∧
      t.program = sampleProg ∧ t.flags = 0 ∧
      t.flags &&& PROGRAM_TRACKER_DONE = 0 ∧
      t.state = sampleSetup sampleProg.setupId sampleProgMsg :=
  claim_C1 sampleSetup samplePM samplePMafter sampleProgMsg sampleProg
    (by decide) (by decide) (by decide)

/-- Sample program-configuration message whose output index equals
`num_outputs` — the claim C3 requires `assign` to reject every index that is
not strictly below `num_outputs`. -/
def sampleMsgAtBound : msg_program_t :=
  { hdr := { type := HMTL_OUTPUT_PROGRAM, output := 2 }, type := 3,
    values := [] }

/-- C3 (divergence exhibit): the bounds check in `handle_msg` is
`msg->hdr.output > num_outputs`, so a message whose output index *equals*
`num_outputs` passes the guard and the function reads
`outputs[num_outputs]`, one past the end of the output array — undefined
behaviour instead of the `InvalidOutput` failure the claim requires
for every `output-index >= num-outputs`. -/
theorem claim_C3 :
    sampleMsgAtBound.hdr.output = samplePM.num_outputs ∧
    samplePM.outputs.length = samplePM.num_outputs ∧
    handle_msg sampleSetup samplePM sampleMsgAtBound = .oob := by
  decide

/-- C6: a program-configuration message carrying the reserved "none" type,
aimed at a valid output (index within bounds, non-`NULL` descriptor), with
the "none" program present in the registry, always succeeds and leaves the
output with no tracker — whatever tracker state was there before. -/
theorem claim_C6 (setupFn : Nat → msg_program_t → Option (List Nat))
    (pm : ProgramManager) (msg : msg_program_t) (P : hmtl_program_t)
    (o : output_hdr_t)
    (hmsg : msg.type = HMTL_PROGRAM_NONE)
    (hlook : lookup_function pm msg.type = some P)
    (hi : msg.hdr.output < pm.num_outputs)
    (hout : pm.outputs[msg.hdr.output]? = some (some o))
    (htr : msg.hdr.output < pm.trackers.length) :
    handle_msg setupFn pm msg = .ok true (free_tracker pm msg.hdr.output) ∧
    (free_tracker pm msg.hdr.output).trackers[msg.hdr.output]? = some none := by
  have hPtype : P.type = HMTL_PROGRAM_NONE := by
    have := List.find?_some hlook
    have h := of_decide_eq_true this
    rw [h, hmsg]
  constructor
  · simp only [handle_msg, hlook]
    rw [if_neg (show ¬pm.num_outputs < msg.hdr.output by omega)]
    simp only [hout, List.getElem?_eq_getElem htr]
    rw [if_pos hPtype]
  · unfold free_tracker
    simp [List.getElem?_set_self htr]

/-- Witness for C6: clearing output 0 of a manager whose output 0 runs a
live (even DONE-flagged) tracker. -/
theorem claim_C6_witness :
    handle_msg sampleSetup samplePMn sampleNoneMsg =
      .ok true (free_tracker samplePMn sampleNoneMsg.hdr.output) ∧
    (free_tracker samplePMn
      sampleNoneMsg.hdr.output).trackers[sampleNoneMsg.hdr.output]? =
        some none :=
  claim_C6 sampleSetup samplePMn sampleNoneMsg sampleNone sampleOut
    (by decide) (by decide) (by decide) (by decide) (by decide)

/-- C7: `check_and_forward` never touches a socket whose send buffer is too
small for the frame — the frame is dropped and reported unforwarded — and
whenever it does forward, the frame fitted the buffer, its bytes were copied
into the send buffer, and exactly one transmission (to the frame's
destination) was appended to the socket's log. -/
theorem claim_C7 (a : Nat) (msg : msg_hdr_t) (socket : Socket) :
    (socket.send_data_size < msg.length →
      check_and_forward a msg socket = (false, socket)) ∧
    (∀ s', check_and_forward a msg socket = (true, s') →
      msg.length ≤ socket.send_data_size ∧
      s'.send_buffer = msg.bytes.take msg.length ∧
      s'.sent = socket.sent ++ [(msg.address, msg.bytes.take msg.length)]) := by
  constructor
  · intro h
    simp [check_and_forward, h]
  · intro s' h
    unfold check_and_forward at h
    split at h
    · split at h
      · cases h
      · rename_i hfit
        injection h with h1 h2
        subst h2
        exact ⟨by omega, rfl, rfl⟩
    · cases h

/-- Sample oversized frame: ten bytes against a four-byte send buffer. -/
def sampleBigMsg : msg_hdr_t :=
  { version := HMTL_MSG_VERSION, length := 10, address := 7,
    type := MSG_TYPE_OUTPUT, flags := 0,
    bytes := [1, 2, 3, 4, 5, 6, 7, 8, 9, 10], source := 5, payload := .raw }

/-- Sample socket with a four-byte send buffer. -/
def sampleSocket : Socket :=
  { send_data_size := 4, send_buffer := [], sourceAddress := 9,
    recvLimit := 4, sent := [] }

/-- Witness for C7: an oversized frame leaves the socket untouched. -/
theorem claim_C7_witness :
    check_and_forward 3 sampleBigMsg sampleSocket = (false, sampleSocket) :=
  (claim_C7 3 sampleBigMsg sampleSocket).1 (by decide)

/-- C9: `ProgramManager::run_program` calls through the looked-up program
pointer unconditionally, so it ends in a call through a `NULL` program
pointer exactly when the requested type is not registered; when the type is
registered it invokes that entry's step function on the argument. -/
theorem claim_C9 (pm : ProgramManager) (type arg : Nat) :
    (lookup_function pm type = none →
      run_program pm type arg = .nullCall) ∧
    (∀ p, lookup_function pm type = some p →
      run_program pm type arg = .called p.stepId arg) := by
  constructor
  · intro h; unfold run_program; rw [h]
  · intro p h; unfold run_program; rw [h]

/-- Witness for C9: requesting an unregistered type (the registry of
`samplePM` holds only type 3) reaches the `NULL` call. -/
theorem claim_C9_witness : run_program samplePM 4 5 = .nullCall :=
  (claim_C9 samplePM 4 5).1 (by decide)

/-! ### Scheduler-tick lemmas -/

/-- An iteration of the run loop at index `j` leaves every other tracker
slot unchanged. -/
theorem run_iter_trackers_ne
    (f : Nat → Option output_hdr_t → Nat → program_tracker_t →
      Bool × program_tracker_t)
    (st : RunState) (i j : Nat) (h : j ≠ i) :
    (run_iter f st j).pm.trackers[i]? = st.pm.trackers[i]? := by
  unfold run_iter
  split
  · rfl
  · rfl
  · split
    · unfold free_tracker
      simp [List.getElem?_set_ne h]
    · simp [List.getElem?_set_ne h]

/-- An iteration of the run loop at index `j` steps no other index. -/
theorem run_iter_stepped_ne
    (f : Nat → Option output_hdr_t → Nat → program_tracker_t →
      Bool × program_tracker_t)
    (st : RunState) (i j : Nat) (h : j ≠ i) :
    (i ∈ (run_iter f st j).stepped) ↔ i ∈ st.stepped := by
  unfold run_iter
  split
  · exact Iff.rfl
  · exact Iff.rfl
  · split
    · exact Iff.rfl
    · simp [List.mem_append, Ne.symm h]

/-- Folding the run loop over a list of indices avoiding `i` preserves
slot `i` and steps `i` never. -/
theorem foldl_run_iter_avoid
    (f : Nat → Option output_hdr_t → Nat → program_tracker_t →
      Bool × program_tracker_t)
    (L : List Nat) (st : RunState) (i : Nat) (h : i ∉ L) :
    (L.foldl (run_iter f) st).pm.trackers[i]? = st.pm.trackers[i]? ∧
    ((i ∈ (L.foldl (run_iter f) st).stepped) ↔ i ∈ st.stepped) := by
  induction L generalizing st with
  | nil => exact ⟨rfl, Iff.rfl⟩
  | cons j tl ih =>
    have hj : j ≠ i := fun e => h (e ▸ List.mem_cons_self j tl)
    have hti : i ∉ tl := fun htl => h (List.mem_cons_of_mem j htl)
    simp only [List.foldl_cons]
    obtain ⟨h1, h2⟩ := ih (run_iter f st j) hti
    exact ⟨h1.trans (run_iter_trackers_ne f st i j hj),
           h2.trans (run_iter_stepped_ne f st i j hj)⟩

/-- An iteration of the run loop at an index holding a DONE-flagged tracker
frees the tracker and does nothing else. -/
theorem run_iter_done
    (f : Nat → Option output_hdr_t → Nat → program_tracker_t →
      Bool × program_tracker_t)
    (st : RunState) (i : Nat) (t : program_tracker_t)
    (ht : st.pm.trackers[i]? = some (some t))
    (hdone : t.flags &&& PROGRAM_TRACKER_DONE ≠ 0) :
    run_iter f st i = { st with pm := free_tracker st.pm i } := by
  simp only [run_iter, ht]
  rw [if_pos hdone]

/-- C2: if at tick entry output `i` holds a tracker whose DONE flag is set,
then `ProgramManager::run` never invokes that tracker's step function during
the tick, and after the tick the output has no tracker (so the next tick
finds none). -/
theorem claim_C2
    (stepFn : Nat → Option output_hdr_t → Nat → program_tracker_t →
      Bool × program_tracker_t)
    (pm : ProgramManager) (i : Nat) (t : program_tracker_t)
    (hi : i < pm.num_outputs)
    (ht : pm.trackers[i]? = some (some t))
    (hdone : t.flags &&& PROGRAM_TRACKER_DONE ≠ 0) :
    (pm.run stepFn).pm.trackers[i]? = some none ∧
    i ∉ (pm.run stepFn).stepped := by
  obtain ⟨k, hk⟩ : ∃ k, pm.num_outputs - i = k + 1 :=
    ⟨pm.num_outputs - i - 1, by omega⟩
  have hsplit : List.range pm.num_outputs =
      List.range' 0 i ++ (i :: List.range' (i + 1) k) := by
    rw [List.range_eq_range']
    have h1 : List.range' 0 i ++ List.range' (0 + i) (k + 1) =
        List.range' 0 (k + 1 + i) := List.range'_append_1 0 i (k + 1)
    have h2 : List.range' i (k + 1) = i :: List.range' (i + 1) k := by
      have := List.range'_succ i k 1
      simpa using this
    rw [show k + 1 + i = pm.num_outputs by omega] at h1
    rw [← h1, Nat.zero_add, h2]
  unfold ProgramManager.run
  rw [hsplit, List.foldl_append, List.foldl_cons]
  have hpre : i ∉ List.range' 0 i := by
    intro hmem
    obtain ⟨j, hj, hji⟩ := List.mem_range'.mp hmem
    omega
  have hsuf : i ∉ List.range' (i + 1) k := by
    intro hmem
    obtain ⟨j, hj, hji⟩ := List.mem_range'.mp hmem
    omega
  obtain ⟨hpre1, hpre2⟩ := foldl_run_iter_avoid stepFn (List.range' 0 i)
    ⟨false, pm, []⟩ i hpre
  set stp := (List.range' 0 i).foldl (run_iter stepFn) ⟨false, pm, []⟩ with hstp
  have htp : stp.pm.trackers[i]? = some (some t) := by rw [hpre1]; exact ht
  have hlt : i < stp.pm.trackers.length := by
    obtain ⟨hl, -⟩ := List.getElem?_eq_some.mp htp
    exact hl
  rw [run_iter_done stepFn stp i t htp hdone]
  obtain ⟨hs1, hs2⟩ := foldl_run_iter_avoid stepFn (List.range' (i + 1) k)
    { stp with pm := free_tracker stp.pm i } i hsuf
  constructor
  · rw [hs1]
    unfold free_tracker
    simp [List.getElem?_set_self hlt]
  · intro hmem
    have := hs2.mp hmem
    simp at this
    rw [hpre2] at this
    simp at this

/-- Sample step-function semantics: report no change and leave the tracker
as it is. -/
def sampleStep : Nat → Option output_hdr_t → Nat → program_tracker_t →
    Bool × program_tracker_t :=
  fun _ _ _ t => (false, t)

/-- Witness for C2: `sampleTracker` on output 0 of `samplePMn` carries the
DONE flag, so the tick frees it without stepping it. -/
theorem claim_C2_witness :
    (samplePMn.run sampleStep).pm.trackers[0]? = some none ∧
    0 ∉ (samplePMn.run sampleStep).stepped :=
  claim_C2 sampleStep samplePMn 0 sampleTracker (by decide) (by decide)
    (by decide)
/-- Sample node configuration. -/
def sampleCfg : config_hdr_t := { device_id := 42 }

/-- Sample ACK-flagged output message addressed to node 5 (not this node,
not broadcast). -/
def sampleAckMsg : msg_hdr_t :=
  { version := HMTL_MSG_VERSION, length := 4, address := 5,
    type := MSG_TYPE_OUTPUT, flags := MSG_FLAG_ACK, bytes := [1, 2, 3, 4],
    source := 9, payload := .output sampleProgMsg }

/-- C5 (divergence exhibit): an ACK-flagged message whose destination is
neither BROADCAST nor this node's address (here: dest 5, node 3) is *not*
echoed onto the serial bridge — the dispatcher's address filter discards it
before the ack-forwarding branch, which sits inside the "for this device"
conditional and therefore only ever fires for acks addressed *to* this
node.  The code's own comment ("an ack message that is not for us, resend
it over serial") and the claim describe the opposite behaviour. -/
theorem claim_C5 :
    sampleAckMsg.flags &&& MSG_FLAG_ACK ≠ 0 ∧
    sampleAckMsg.address ≠ 3 ∧ sampleAckMsg.address ≠ SOCKET_ADDR_ANY ∧
    ∃ eff,
      process_msg 3 sampleAckMsg (some sampleSocket) sampleSocket sampleCfg =
        .ok eff ∧
      eff.serial_writes = [] ∧ eff.dispatched = false :=
  ⟨by decide, by decide, by decide,
   { address := 3, src := some sampleSocket }, by decide, rfl, rfl⟩

/-- Sample broadcast poll frame. -/
def samplePollB : msg_hdr_t :=
  { version := HMTL_MSG_VERSION, length := 4, address := SOCKET_ADDR_ANY,
    type := MSG_TYPE_POLL, flags := 0, bytes := [1, 2, 3, 4], source := 9,
    payload := .raw }

/-- C8 counterexample: a poll with destination BROADCAST received over the
serial bridge (no source socket) is answered with zero delay, not the
`address × 2` ms the claim requires for every broadcast poll (node address
3 here, so the claim demands 6). -/
theorem claim_C8_counterexample :
    ∃ eff,
      process_msg 3 samplePollB none sampleSocket sampleCfg = .ok eff ∧
      eff.delayMs = 0 ∧ eff.delayMs ≠ 3 * 2 :=
  ⟨{ address := 3, serial_writes := [[0, 0, 0, 0]], src := none,
     dispatched := true,
     serial_sock := some { sampleSocket with send_buffer := [0, 0, 0, 0] } },
   by decide, rfl, by decide⟩
theorem process_msg_poll_sock (a : Nat) (msg : msg_hdr_t) (s ssock : Socket)
    (config : config_hdr_t)
    (hv : msg.version = HMTL_MSG_VERSION) (ht : msg.type = MSG_TYPE_POLL)
    (hin : msg.address = a ∨ msg.address = SOCKET_ADDR_ANY)
    (hecho : ¬(msg.flags &&& MSG_FLAG_ACK ≠ 0 ∧ msg.address ≠ SOCKET_ADDR_ANY)) :
    process_msg a msg (some s) ssock config = .ok
      { address := a,
        delayMs := if msg.address = SOCKET_ADDR_ANY then a * 2 else 0,
        dispatched := true,
        src := some { s with
          send_buffer :=
            hmtl_poll_fmt s.send_data_size msg.source msg.flags s.recvLimit,
          sent := s.sent ++ [(msg.source,
            hmtl_poll_fmt s.send_data_size msg.source msg.flags
              s.recvLimit)] } } := by
  unfold process_msg
  rw [if_neg (by simp [hv])]
  rw [if_pos hin]
  simp only [ht]
  simp [MSG_TYPE_POLL, MSG_TYPE_OUTPUT, ack_echo, echo_writes, hecho]

/-- C8 (amended): a poll received over a bus socket with destination
BROADCAST is answered after a delay of `address × 2` ms; a poll received
over a bus socket addressed to this node (no ACK flag, node address not the
broadcast value) is answered with zero delay; and for two node addresses
`a1 ≤ a2` the broadcast-response delay of `a1` never exceeds that of `a2`.
(Polls received over the serial bridge are answered immediately even when
broadcast — see the counterexample.) -/
theorem claim_C8 (a : Nat) (msg : msg_hdr_t) (s serial_socket : Socket)
    (config : config_hdr_t)
    (hv : msg.version = HMTL_MSG_VERSION) (ht : msg.type = MSG_TYPE_POLL) :
    (msg.address = SOCKET_ADDR_ANY →
      ∃ eff, process_msg a msg (some s) serial_socket config = .ok eff ∧
        eff.delayMs = a * 2) ∧
    (msg.address = a → a ≠ SOCKET_ADDR_ANY →
      msg.flags &&& MSG_FLAG_ACK = 0 →
      ∃ eff, process_msg a msg (some s) serial_socket config = .ok eff ∧
        eff.delayMs = 0) ∧
    (∀ a1 a2 : Nat, ∀ eff1 eff2 : ProcEffects, a1 ≤ a2 →
      msg.address = SOCKET_ADDR_ANY →
      process_msg a1 msg (some s) serial_socket config = .ok eff1 →
      process_msg a2 msg (some s) serial_socket config = .ok eff2 →
      eff1.delayMs ≤ eff2.delayMs) := by
  refine ⟨?_, ?_, ?_⟩
  · intro hb
    exact ⟨_, process_msg_poll_sock a msg s serial_socket config hv ht
      (Or.inr hb) (by simp [hb]), by simp [hb]⟩
  · intro ha hne hack
    exact ⟨_, process_msg_poll_sock a msg s serial_socket config hv ht
      (Or.inl ha) (by simp [hack]), by simp [ha, hne]⟩
  · intro a1 a2 eff1 eff2 h12 hb h1 h2
    rw [process_msg_poll_sock a1 msg s serial_socket config hv ht
      (Or.inr hb) (by simp [hb])] at h1
    rw [process_msg_poll_sock a2 msg s serial_socket config hv ht
      (Or.inr hb) (by simp [hb])] at h2
    injection h1 with h1'
    injection h2 with h2'
    subst h1' h2'
    simp [hb]
    omega

/-- Witness for C8: node 3 answers a broadcast poll arriving on a bus
socket after a 6 ms delay. -/
theorem claim_C8_witness :
    ∃ eff,
      process_msg 3 samplePollB (some sampleSocket) sampleSocket sampleCfg =
        .ok eff ∧ eff.delayMs = 3 * 2 :=
  (claim_C8 3 samplePollB sampleSocket sampleSocket sampleCfg (by decide)
    (by decide)).1 (by decide)
/-- C10: the SET_ADDR handler stores the new address through the source
socket unconditionally once the device identifier matches (or is the
wildcard 0).  When such a message arrives over a bus socket, the handler's
address and the socket's `sourceAddress` become the new address; when it
arrives over the serial bridge — whose messages are processed with a `NULL`
source socket — the very same branch dereferences the `NULL` pointer, so
safety requires that a matching SET_ADDR only ever arrive via a bus
socket. -/
theorem claim_C10 (a : Nat) (msg : msg_hdr_t) (did new_address : Nat)
    (serial_socket : Socket) (config : config_hdr_t)
    (hv : msg.version = HMTL_MSG_VERSION)
    (ht : msg.type = MSG_TYPE_SET_ADDR)
    (hp : msg.payload = .setAddr did new_address)
    (haddr : msg.address = a ∨ msg.address = SOCKET_ADDR_ANY)
    (hack : msg.flags &&& MSG_FLAG_ACK = 0)
    (hdid : did = 0 ∨ did = config.device_id) :
    process_msg a msg none serial_socket config = .nullDeref ∧
    (∀ s : Socket, ∃ eff,
      process_msg a msg (some s) serial_socket config = .ok eff ∧
      eff.address = new_address ∧
      eff.src = some { s with sourceAddress := new_address }) := by
  have hecho : ¬(msg.flags &&& MSG_FLAG_ACK ≠ 0 ∧
      msg.address ≠ SOCKET_ADDR_ANY) := by simp [hack]
  constructor
  · unfold process_msg
    rw [if_neg (by simp [hv]), if_pos haddr]
    simp only [ht, hp]
    simp [MSG_TYPE_SET_ADDR, MSG_TYPE_OUTPUT, MSG_TYPE_POLL,
          MSG_TYPE_SENSOR, ack_echo, echo_writes, hecho, hdid]
  · intro s
    have hE : process_msg a msg (some s) serial_socket config = .ok
        { address := new_address, dispatched := true,
          src := some { s with sourceAddress := new_address } } := by
      unfold process_msg
      rw [if_neg (by simp [hv]), if_pos haddr]
      simp only [ht, hp]
      simp [MSG_TYPE_SET_ADDR, MSG_TYPE_OUTPUT, MSG_TYPE_POLL,
            MSG_TYPE_SENSOR, ack_echo, echo_writes, hecho, hdid]
    exact ⟨_, hE, rfl, rfl⟩

/-- Sample matching SET_ADDR frame (wildcard device id, new address 7). -/
def sampleSetAddrMsg : msg_hdr_t :=
  { version := HMTL_MSG_VERSION, length := 4, address := SOCKET_ADDR_ANY,
    type := MSG_TYPE_SET_ADDR, flags := 0, bytes := [1, 2, 3, 4],
    source := 9, payload := .setAddr 0 7 }

/-- Witness for C10: a broadcast wildcard SET_ADDR processed with no source
socket (the serial path) reaches the `NULL` dereference; over a bus socket
it rewrites the node's and the socket's address to 7. -/
theorem claim_C10_witness :
    process_msg 3 sampleSetAddrMsg none sampleSocket sampleCfg =
      .nullDeref ∧
    (∀ s : Socket, ∃ eff,
      process_msg 3 sampleSetAddrMsg (some s) sampleSocket sampleCfg =
        .ok eff ∧
      eff.address = 7 ∧ eff.src = some { s with sourceAddress := 7 }) :=
  claim_C10 3 sampleSetAddrMsg 0 7 sampleSocket sampleCfg (by decide)
    (by decide) (by decide) (by decide) (by decide) (by decide)

/-- Lemma: `process_msg` touches the lent serial-response socket only to fill its
send buffer: whenever it reports a mutated `serial_sock`, that socket's
transmission log is exactly the original one. -/
theorem process_msg_serial_sock_sent (a : Nat) (msg : msg_hdr_t)
    (src : Option Socket) (ssock : Socket) (config : config_hdr_t)
    (eff : ProcEffects)
    (h : process_msg a msg src ssock config = .ok eff) :
    eff.serial_sock = none ∨
    ∃ s0, eff.serial_sock = some s0 ∧ s0.sent = ssock.sent := by
  unfold process_msg at h
  repeat' split at h
  all_goals first
    | (injection h; done)
    | (injection h with h'; subst h'; simp)
/-- A broadcast message that passes the version check always reaches the
dispatcher's type switch. -/
theorem process_msg_broadcast_dispatched (a : Nat) (msg : msg_hdr_t)
    (src : Option Socket) (ssock : Socket) (config : config_hdr_t)
    (hv : msg.version = HMTL_MSG_VERSION)
    (hb : msg.address = SOCKET_ADDR_ANY) :
    (process_msg a msg src ssock config).wasDispatched = true := by
  unfold process_msg
  rw [if_neg (by simp [hv]), if_pos (Or.inr hb)]
  rw [if_neg (by simp [ack_echo, hb])]
  repeat' split
  all_goals rfl

/-- Forwarding a fitting frame appends exactly one transmission to the
socket's log. -/
theorem check_and_forward_sent (addr : Nat) (msg : msg_hdr_t) (s : Socket)
    (hfwd : msg.address ≠ addr ∨ msg.address = SOCKET_ADDR_ANY)
    (hfit : msg.length ≤ s.send_data_size) :
    (check_and_forward addr msg s).2 = { s with
      send_buffer := msg.bytes.take msg.length,
      sent := s.sent ++ [(msg.address, msg.bytes.take msg.length)] } := by
  unfold check_and_forward
  rw [if_pos hfwd, if_neg (by omega)]

/-- C4 (amended): a frame received on the *serial* transport whose
destination is BROADCAST or not this node's address is offered to every
live socket, and every live socket whose send buffer fits the frame
transmits it exactly once (one entry appended to its log); a broadcast
frame is additionally dispatched locally.  (A frame received on a bus
socket is only dispatched locally, never retransmitted — see the
counterexample.) -/
theorem claim_C4 (addr : Nat) (msg : msg_hdr_t)
    (sockets : List (Option Socket)) (config : config_hdr_t)
    (hfwd : msg.address = SOCKET_ADDR_ANY ∨ msg.address ≠ addr) :
    (∀ (j : Nat) (s : Socket), sockets[j]? = some (some s) →
      msg.length ≤ s.send_data_size →
      ∃ s', (check_serial addr (some msg) sockets config).sockets[j]? =
          some (some s') ∧
        s'.sent = s.sent ++ [(msg.address, msg.bytes.take msg.length)]) ∧
    (msg.address = SOCKET_ADDR_ANY → msg.version = HMTL_MSG_VERSION →
      ∃ pr, (check_serial addr (some msg) sockets config).proc = some pr ∧
        pr.wasDispatched = true) := by
  have hfwd' : msg.address ≠ addr ∨ msg.address = SOCKET_ADDR_ANY := hfwd.symm
  constructor
  · intro j s hj hfit
    have hmap : (forward_to_all addr msg sockets)[j]? =
        some (some ((check_and_forward addr msg s).2)) := by
      simp [forward_to_all, hj]
    have hsent : ((check_and_forward addr msg s).2).sent =
        s.sent ++ [(msg.address, msg.bytes.take msg.length)] := by
      rw [check_and_forward_sent addr msg s hfwd' hfit]
    simp only [check_serial]
    split
    · exact ⟨_, hmap, hsent⟩
    · rename_i eff heq
      split
      · rename_i s0 heq2
        rcases process_msg_serial_sock_sent addr msg none
            (serial_lend (forward_to_all addr msg sockets)) config eff heq
          with hnone | ⟨s0', heq', hsent'⟩
        · rw [hnone] at heq2; cases heq2
        · rw [heq'] at heq2
          injection heq2 with h0
          subst h0
          by_cases hj0 : j = 0
          · subst hj0
            have hlen : 0 < (forward_to_all addr msg sockets).length := by
              rcases h : (forward_to_all addr msg sockets)[0]? with _ | v
              · rw [h] at hmap; cases hmap
              · exact (List.getElem?_eq_some.mp h).1
            refine ⟨s0', by simp [List.getElem?_set_self hlen], ?_⟩
            rw [hsent', serial_lend, hmap]
            simpa using hsent
          · exact ⟨_, by rw [List.getElem?_set_ne (fun e => hj0 e.symm)]
                         exact hmap, hsent⟩
      · exact ⟨_, hmap, hsent⟩
  · intro hb hv
    have hd := process_msg_broadcast_dispatched addr msg none
      (serial_lend (forward_to_all addr msg sockets)) config hv hb
    simp only [check_serial]
    split
    · rename_i heq
      rw [heq] at hd
      exact ⟨_, rfl, hd⟩
    · rename_i eff heq
      rw [heq] at hd
      split
      · exact ⟨_, rfl, hd⟩
      · exact ⟨_, rfl, hd⟩
/-- Sample live bus socket with a roomy send buffer. -/
def sampleSocketB : Socket :=
  { send_data_size := 64, send_buffer := [], sourceAddress := 1,
    recvLimit := 64, sent := [] }

/-- Sample broadcast output frame. -/
def sampleBroadcastMsg : msg_hdr_t :=
  { version := HMTL_MSG_VERSION, length := 4, address := SOCKET_ADDR_ANY,
    type := MSG_TYPE_OUTPUT, flags := 0, bytes := [9, 9, 9, 9], source := 8,
    payload := .output sampleProgMsg }

/-- Witness for C4: a broadcast frame arriving on the serial port of node 3
is transmitted exactly once by the live socket and dispatched locally. -/
theorem claim_C4_witness :
    (∃ s', (check_serial 3 (some sampleBroadcastMsg) [some sampleSocketB]
        sampleCfg).sockets[0]? = some (some s') ∧
      s'.sent = sampleSocketB.sent ++ [(sampleBroadcastMsg.address,
        sampleBroadcastMsg.bytes.take sampleBroadcastMsg.length)]) ∧
    (∃ pr, (check_serial 3 (some sampleBroadcastMsg) [some sampleSocketB]
        sampleCfg).proc = some pr ∧ pr.wasDispatched = true) :=
  ⟨(claim_C4 3 sampleBroadcastMsg [some sampleSocketB] sampleCfg
      (by decide)).1 0 sampleSocketB (by decide) (by decide),
   (claim_C4 3 sampleBroadcastMsg [some sampleSocketB] sampleCfg
      (by decide)).2 (by decide) (by decide)⟩

/-- C4 counterexample: a broadcast frame received on bus socket 0 of node 3
is dispatched locally (`update = true`) but retransmitted on *no* other
transport: live socket 1 (with ample buffer room) transmits nothing and
nothing is written to the serial port — the claim requires exactly one
retransmission on every other live transport. -/
theorem claim_C4_counterexample :
    (check 3 none [some sampleBroadcastMsg, none]
      [some sampleSocketB, some sampleSocketB] sampleCfg).update = true ∧
    (check 3 none [some sampleBroadcastMsg, none]
      [some sampleSocketB, some sampleSocketB] sampleCfg).sockets[1]? =
        some (some sampleSocketB) ∧
    sampleSocketB.sent = [] ∧
    (check 3 none [some sampleBroadcastMsg, none]
      [some sampleSocketB, some sampleSocketB] sampleCfg).serial_writes =
        [] := by
  decide
